import Mathlib

/-!
Verification development for the `frank_libs.dialogue_tree` package: a shallow
embedding of the node model (`nodes.py`), the tree and its validator
(`tree.py`), the JSON (de)serializers (`serde.py`) and the interpreter loop
(`interpreter.py`).  Python floats are embedded as rationals (every number
occurring in the claims is small and exactly representable), Python `dict`s as
insertion-ordered association lists, raised exceptions as `Option`/`Except`
error values.
-/

namespace FrankLibs

/-- Python exceptions that the embedded code can raise. -/
inductive PyErr
  | typeError
  | attributeError
  | indexError
deriving DecidableEq

/-- `AnswerVerificationResult` from `nodes.py` (the `TooManuArguments` typo is
the source's). -/
inductive AnswerVerificationResult
  | Ok
  | ExpectedNumber
  | OutOfRange
  | NotEnoughArguments
  | TooManuArguments
  | SlackUserNotFound
deriving DecidableEq

/-- `AnswerVerificationResult.to_message`: `None` for `Ok`, a fixed message
otherwise. -/
def AnswerVerificationResult.to_message :
    AnswerVerificationResult → Option String
  | .Ok => none
  | .ExpectedNumber => some "Expecting number as an answer"
  | .OutOfRange => some "Your answer is out of range"
  | .NotEnoughArguments => some "You haven\x27t supplied enough arguments"
  | .TooManuArguments => some "You have supplied too many arguments"
  | .SlackUserNotFound => some "Slack user not found"

/-! ### Python primitives -/

/-- Decimal value of a digit string; `none` on a non-digit. -/
def digitsValAux : List Char → ℕ → Option ℕ
  | [], acc => some acc
  | c :: cs, acc =>
    if c.isDigit then digitsValAux cs (10 * acc + (c.toNat - 48)) else none

/-- Decimal value of a non-empty digit string. -/
def digitsVal (cs : List Char) : Option ℕ :=
  if cs.isEmpty then none else digitsValAux cs 0

/-- Models Python `int(s)` for a decimal string with an optional sign;
`none` models the raised `ValueError`. -/
def pyParseInt (s : String) : Option ℤ :=
  match s.data with
  | '-' :: cs => (digitsVal cs).map (fun n => -(n : ℤ))
  | '+' :: cs => (digitsVal cs).map (fun n => (n : ℤ))
  | cs => (digitsVal cs).map (fun n => (n : ℤ))

/-- Split a character list at its first `'.'`; the second component is `none`
when no dot occurs. -/
def splitOnDot : List Char → List Char × Option (List Char)
  | [] => ([], none)
  | c :: cs =>
    if c = '.' then ([], some cs)
    else
      match splitOnDot cs with
      | (pre, post) => (c :: pre, post)

/-- Models Python `float(s)` for a decimal string with an optional sign and an
optional fractional part, as an exact rational; `none` models the raised
`ValueError`.  (A second dot makes the fractional digits fail to parse, as in
Python.) -/
def pyParseFloat (s : String) : Option ℚ :=
  let core : List Char → Option ℚ := fun body =>
    match splitOnDot body with
    | (ip, none) => (digitsVal ip).map (fun n => (n : ℚ))
    | (ip, some fp) =>
      if ip.isEmpty && fp.isEmpty then none
      else
        match (if ip.isEmpty then some 0 else digitsVal ip),
            (if fp.isEmpty then some 0 else digitsVal fp) with
        | some a, some b =>
          some ((a : ℚ) + (b : ℚ) / ((10 ^ fp.length : ℕ) : ℚ))
        | _, _ => none
  match s.data with
  | '-' :: cs => (core cs).map (fun q => -q)
  | '+' :: cs => core cs
  | cs => core cs

/-- Guarded list access at an integer position (no wrap-around). -/
def pyIndexAt {α : Type} (l : List α) (j : ℤ) : Option α :=
  if h : 0 ≤ j ∧ j.toNat < l.length then some (l.get ⟨j.toNat, h.2⟩) else none

/-- Python list indexing `l[i]`: negative indices wrap from the end, an index
out of range raises `IndexError` (embedded as `none`). -/
def pyIndex {α : Type} (l : List α) (i : ℤ) : Option α :=
  pyIndexAt l (if i < 0 then i + l.length else i)

/-- Python dict lookup `d.get(k)` over an insertion-ordered association list
(keys are unique, so the first match is the only one). -/
def pyDictGet {α : Type} : List (ℤ × α) → ℤ → Option α
  | [], _ => none
  | (k, v) :: rest, key => if key = k then some v else pyDictGet rest key

/-- Python dict assignment `d[k] = v`: overwrites in place if the key exists
(keeping its position), otherwise appends at the end. -/
def pyDictSet {α : Type} (l : List (ℤ × α)) (k : ℤ) (v : α) : List (ℤ × α) :=
  if l.any (fun p => p.1 = k) then
    l.map (fun p => if p.1 = k then (k, v) else p)
  else
    l ++ [(k, v)]

/-! ### ChoiceDialogueNode -/

/-- `ChoiceDialogueNode`: `choices` is the insertion-ordered dict
target-node-id ↦ label. -/
structure ChoiceDialogueNode where
  id : ℤ
  text : String
  choices : List (ℤ × String)
deriving DecidableEq

/-- `ChoiceDialogueNode.verify_answer`: `i = int(answer) - 1`; `Ok` when
`i < len(choices)`, `OutOfRange` otherwise, `ExpectedNumber` when `int(...)`
raises `ValueError`.  (The source has no lower-bound test on `i`.) -/
def ChoiceDialogueNode.verify_answer (node : ChoiceDialogueNode)
    (answer : String) : AnswerVerificationResult :=
  match pyParseInt answer with
  | none => .ExpectedNumber
  | some k =>
    if k - 1 < (node.choices.length : ℤ) then .Ok else .OutOfRange

/-- `ChoiceDialogueNode.get_next`: `list(choices.keys())[int(answer) - 1]`,
with Python's negative-index wrap-around; `none` models a raised
`ValueError`/`IndexError`. -/
def ChoiceDialogueNode.get_next (node : ChoiceDialogueNode)
    (answer : String) : Option ℤ :=
  (pyParseInt answer).bind fun k =>
    pyIndex (node.choices.map Prod.fst) (k - 1)

/-! ### IntervalDialogueNode -/

/-- `IntervalDialogueNode`: ordered list of `(threshold, target_id)` pairs. -/
structure IntervalDialogueNode where
  id : ℤ
  text : String
  choices : List (ℚ × ℤ)
deriving DecidableEq

/-- The scan of `IntervalDialogueNode.get_next`: for each `choice` in
`choices[:-1]` in order, with `next_` the following entry, return
`choice[1]` as soon as `n <= next_[0]`; falling off the loop returns Python
`None` (all stored entries are pairs, so the `isinstance` test on `next_`
always takes the tuple branch). -/
def IntervalDialogueNode.get_nextAux : List (ℚ × ℤ) → ℚ → Option ℤ
  | c1 :: c2 :: rest, n =>
    if n ≤ c2.1 then some c1.2 else IntervalDialogueNode.get_nextAux (c2 :: rest) n
  | _, _ => none

/-- `IntervalDialogueNode.get_next`: parse the answer as a float, then scan
consecutive entry pairs; the outer `none` models the uncaught `ValueError`
from `float(answer)`. -/
def IntervalDialogueNode.get_next (node : IntervalDialogueNode)
    (answer : String) : Option (Option ℤ) :=
  (pyParseFloat answer).map (fun n => IntervalDialogueNode.get_nextAux node.choices n)

/-- `IntervalDialogueNode._get_boundaries`: running min/max over the
thresholds, starting from `None` and defaulting to `0` for an empty list. -/
def IntervalDialogueNode._get_boundaries (choices : List (ℚ × ℤ)) : ℚ × ℚ :=
  let mn := choices.foldl
    (fun (acc : Option ℚ) c =>
      match acc with
      | none => some c.1
      | some m => if c.1 < m then some c.1 else some m) none
  let mx := choices.foldl
    (fun (acc : Option ℚ) c =>
      match acc with
      | none => some c.1
      | some m => if c.1 > m then some c.1 else some m) none
  (mn.getD 0, mx.getD 0)

/-- `IntervalDialogueNode.verify_answer`: `Ok` iff the parsed float lies in
the stored global boundaries, `ExpectedNumber` on parse failure. -/
def IntervalDialogueNode.verify_answer (node : IntervalDialogueNode)
    (answer : String) : AnswerVerificationResult :=
  match pyParseFloat answer with
  | none => .ExpectedNumber
  | some n =>
    let b := IntervalDialogueNode._get_boundaries node.choices
    if b.1 ≤ n ∧ n ≤ b.2 then .Ok else .OutOfRange

/-! ### Sanity checks on the primitives -/

example : pyParseInt "0" = some 0 := by decide
example : pyParseInt "-3" = some (-3) := by decide
example : pyParseInt "1.5" = none := by decide
example : pyParseFloat "15" = some 15 := by decide
example : pyParseFloat "1.x" = none := by decide
example : pyIndex [10, 20, 30] (-1) = some 30 := by decide

/-! ### Claim C1 -/

/-- C1 (code evaluated at the failing input): on a `ChoiceDialogueNode` with
two choices, `verify_answer "0"` returns `Ok` — not `OutOfRange` as the claim
states — because the source checks only `int(answer) - 1 < len(choices)` with
no lower bound; `get_next "0"` then routes to the *last* choice through
Python's negative indexing, and `verify_answer "-5"` is also `Ok`. -/
theorem c1_choice_verify_answer_zero_is_ok :
    ChoiceDialogueNode.verify_answer ⟨1, "q", [(2, "a"), (3, "b")]⟩ "0" =
        AnswerVerificationResult.Ok ∧
      ChoiceDialogueNode.get_next ⟨1, "q", [(2, "a"), (3, "b")]⟩ "0" = some 3 ∧
      ChoiceDialogueNode.verify_answer ⟨1, "q", [(2, "a"), (3, "b")]⟩ "-5" =
        AnswerVerificationResult.Ok := by
  refine ⟨by decide, by decide, by decide⟩

/-! ### Claim C3 -/

/-- C3 (code evaluated at the failing input): on the Interval node with
entries `[(0,-1),(10,5),(20,6)]` the source `get_next "15"` returns `5`, not
`6` as the claim states: the scan returns the target stored with the entry
*preceding* the first threshold `≥ v`.  Consequently `get_next "5"` returns
the sentinel `-1` and no answer ever routes to target `6`. -/
theorem c3_interval_get_next_returns_preceding_target :
    IntervalDialogueNode.get_next ⟨7, "t", [(0, -1), (10, 5), (20, 6)]⟩ "15" =
        some (some 5) ∧
      IntervalDialogueNode.get_next ⟨7, "t", [(0, -1), (10, 5), (20, 6)]⟩ "5" =
        some (some (-1)) ∧
      IntervalDialogueNode.verify_answer ⟨7, "t", [(0, -1), (10, 5), (20, 6)]⟩
        "15" = AnswerVerificationResult.Ok := by
  refine ⟨by decide, by decide, by decide⟩

/-! ### QuantifiableDialogueNode -/

/-- One entry of a quantifiable node's `choices` JSON list (already
number-coerced, as `from_dict` does with `int(...)`/`float(...)`). -/
structure QuantChoiceDef where
  target_id : ℤ
  min : ℚ
  max : ℚ
deriving DecidableEq

/-- The JSON payload of a quantifiable node definition; `none` for
`min_value`/`max_value` models the missing key (the `KeyError` path). -/
structure QuantifiableNodeDef where
  text : String
  min_value : Option ℚ
  max_value : Option ℚ
  choices : List QuantChoiceDef
deriving DecidableEq

/-- `QuantifiableDialogueNode.QuantifiableChoice`: bounds may be `None`. -/
structure QuantifiableChoice where
  target_id : ℤ
  min : Option ℚ
  max : Option ℚ
deriving DecidableEq

/-- `QuantifiableDialogueNode`: global bounds plus the dict
target-id ↦ sub-range. -/
structure QuantifiableDialogueNode where
  id : ℤ
  text : String
  min_value : Option ℚ
  max_value : Option ℚ
  choices : List (ℤ × QuantifiableChoice)
deriving DecidableEq

/-- One iteration of the `from_dict` loop: update the running `_min_value` /
`_max_value` accumulators (seeded with `0` in the source) and insert the
choice into the dict keyed by `target_id`. -/
def QuantifiableDialogueNode.from_dictStep
    (acc : List (ℤ × QuantifiableChoice) × ℚ × ℚ) (c : QuantChoiceDef) :
    List (ℤ × QuantifiableChoice) × ℚ × ℚ :=
  (pyDictSet acc.1 c.target_id ⟨c.target_id, some c.min, some c.max⟩,
   if c.min < acc.2.1 then c.min else acc.2.1,
   if c.max > acc.2.2 then c.max else acc.2.2)

/-- `QuantifiableDialogueNode.from_dict`: `enum_min_max` is set when
`min_value`/`max_value` is missing (`KeyError`), in which case the global
bounds are taken from the loop accumulators, which start at `0`. -/
def QuantifiableDialogueNode.from_dict (node_id : ℤ)
    (d : QuantifiableNodeDef) : QuantifiableDialogueNode :=
  let enum_min_max := d.min_value.isNone || d.max_value.isNone
  let res := d.choices.foldl QuantifiableDialogueNode.from_dictStep ([], 0, 0)
  if enum_min_max then
    ⟨node_id, d.text, some res.2.1, some res.2.2, res.1⟩
  else
    ⟨node_id, d.text, some (d.min_value.getD 0), some (d.max_value.getD 0),
      res.1⟩

/-! ### Claim C6 -/

/-- The concrete input of claim C6: sub-ranges `[5,10]` and `[10,20]`, no
global bounds. -/
def c6Def : QuantifiableNodeDef :=
  ⟨"t", none, none, [⟨2, 5, 10⟩, ⟨3, 10, 20⟩]⟩

/-- C6 counterexample: with sub-ranges `[5,10]` and `[10,20]` and missing
global bounds, `from_dict` derives `min = 0`, not `5` as the claim states,
because the running-minimum accumulator is seeded with `0`. -/
theorem c6_counterexample_derived_min_is_zero :
    (QuantifiableDialogueNode.from_dict 1 c6Def).min_value = some 0 ∧
      (QuantifiableDialogueNode.from_dict 1 c6Def).max_value = some 20 ∧
      some (0 : ℚ) ≠ some (5 : ℚ) := by
  refine ⟨by decide, by decide, by decide⟩

theorem from_dict_foldl_min (l : List QuantChoiceDef)
    (acc : List (ℤ × QuantifiableChoice) × ℚ × ℚ) :
    (l.foldl QuantifiableDialogueNode.from_dictStep acc).2.1 =
      l.foldl (fun a c => min a c.min) acc.2.1 := by
  induction l generalizing acc with
  | nil => rfl
  | cons c t ih =>
    simp only [List.foldl_cons, ih]
    congr 1
    show (if c.min < acc.2.1 then c.min else acc.2.1) = min acc.2.1 c.min
    rcases lt_or_le c.min acc.2.1 with h | h
    · simp [h, min_eq_right h.le]
    · simp [not_lt.mpr h, min_eq_left h]

theorem from_dict_foldl_max (l : List QuantChoiceDef)
    (acc : List (ℤ × QuantifiableChoice) × ℚ × ℚ) :
    (l.foldl QuantifiableDialogueNode.from_dictStep acc).2.2 =
      l.foldl (fun a c => max a c.max) acc.2.2 := by
  induction l generalizing acc with
  | nil => rfl
  | cons c t ih =>
    simp only [List.foldl_cons, ih]
    congr 1
    show (if c.max > acc.2.2 then c.max else acc.2.2) = max acc.2.2 c.max
    rcases lt_or_le acc.2.2 c.max with h | h
    · simp [h, max_eq_right h.le]
    · simp [not_lt.mpr h, max_eq_left h]

/-- C6 as amended: when `min_value` or `max_value` is omitted, the derived
global bounds are the minimum of `0` and all sub-range minima, and the
maximum of `0` and all sub-range maxima (the accumulators are seeded with
`0`); sub-ranges `[5,10]`, `[10,20]` therefore yield `[0,20]`. -/
theorem c6_amended_bounds_include_zero (node_id : ℤ)
    (d : QuantifiableNodeDef)
    (h : d.min_value = none ∨ d.max_value = none) :
    (QuantifiableDialogueNode.from_dict node_id d).min_value =
        some (d.choices.foldl (fun a c => min a c.min) 0) ∧
      (QuantifiableDialogueNode.from_dict node_id d).max_value =
        some (d.choices.foldl (fun a c => max a c.max) 0) := by
  have henum : (d.min_value.isNone || d.max_value.isNone) = true := by
    rcases h with h | h <;> simp [h]
  unfold QuantifiableDialogueNode.from_dict
  simp only [henum, if_true]
  exact ⟨by rw [from_dict_foldl_min], by rw [from_dict_foldl_max]⟩

/-- Witness for C6: the amended statement evaluated at the concrete
sub-ranges `[5,10]`, `[10,20]`. -/
theorem c6_amended_bounds_include_zero_witness :
    (c6Def.min_value = none ∨ c6Def.max_value = none) ∧
      ((QuantifiableDialogueNode.from_dict 1 c6Def).min_value =
          some (c6Def.choices.foldl (fun a c => min a c.min) 0) ∧
        (QuantifiableDialogueNode.from_dict 1 c6Def).max_value =
          some (c6Def.choices.foldl (fun a c => max a c.max) 0)) :=
  ⟨Or.inl rfl, c6_amended_bounds_include_zero 1 c6Def (Or.inl rfl)⟩

/-! ### The remaining node variants -/

/-- `GenericQuestionDialogueNode`: free-text node with one successor. -/
structure GenericQuestionDialogueNode where
  id : ℤ
  text : String
  next_node : Option ℤ
deriving DecidableEq

/-- `SlackUserVo` from `vos.py`, restricted to the fields the dialogue-tree
code reads (`verify_answer` only compares `profile__display_name`). -/
structure SlackUserVo where
  id : Option String
  name : Option String
  profile__display_name : Option String
deriving DecidableEq

/-- `SlackUsersChooseDialogueNode`.  `injected_data = none` models a node on
which `inject_data` was never called: in the source the `_injected_data`
attribute is then even absent, because `BaseInjectableNode.__init__` is never
reached through this class's `__init__` chain, and reading it raises
`AttributeError`. -/
structure SlackUsersChooseDialogueNode where
  id : ℤ
  text : String
  next_node : Option ℤ
  injected_data : Option (List (ℤ × SlackUserVo))
deriving DecidableEq

/-- `BaseInjectableNode.inject_data`. -/
def SlackUsersChooseDialogueNode.inject_data
    (n : SlackUsersChooseDialogueNode) (data : List (ℤ × SlackUserVo)) :
    SlackUsersChooseDialogueNode :=
  { n with injected_data := some data }

/-- `SlackUsersChooseDialogueNode.verify_answer`: iterates the injected user
directory and returns `Ok` on the first user whose
`profile__display_name` equals the answer (Python `==`, so `None == None`
matches), else `SlackUserNotFound`; with no injected data the attribute read
fails (`none`). -/
def SlackUsersChooseDialogueNode.verify_answer
    (n : SlackUsersChooseDialogueNode) (answer : Option String) :
    Option AnswerVerificationResult :=
  match n.injected_data with
  | none => none
  | some data =>
    some (if data.any (fun p => answer == p.2.profile__display_name) then
        AnswerVerificationResult.Ok
      else
        AnswerVerificationResult.SlackUserNotFound)

/-- `EndDialogueNode`: terminal node. -/
structure EndDialogueNode where
  id : ℤ
  text : String
deriving DecidableEq

/-- Modelled from the spec: `NotificationNode` is referenced by `serde.py`
(dispatch key `"notification"`) and by `interpreter.py`, but its class is
missing from `nodes.py`; per the spec it is a single-answer informational
node with the same successor contract as GenericQuestion, built from a
`{text, next_node}` definition. -/
structure NotificationNode where
  id : ℤ
  text : String
  next_node : Option ℤ
deriving DecidableEq

/-- The closed set of node variants present in the source. -/
inductive DialogueNode
  | choice (n : ChoiceDialogueNode)
  | quantifiable (n : QuantifiableDialogueNode)
  | question (n : GenericQuestionDialogueNode)
  | interval (n : IntervalDialogueNode)
  | slackUsers (n : SlackUsersChooseDialogueNode)
  | notification (n : NotificationNode)
  | endNode (n : EndDialogueNode)
deriving DecidableEq

/-- The node's `id` attribute. -/
def DialogueNode.nodeId : DialogueNode → ℤ
  | .choice n => n.id
  | .quantifiable n => n.id
  | .question n => n.id
  | .interval n => n.id
  | .slackUsers n => n.id
  | .notification n => n.id
  | .endNode n => n.id

/-- A node's Python class (`node.__class__`). -/
inductive NodeClass
  | choice
  | quantifiable
  | question
  | interval
  | slackUsers
  | notification
  | endNode
deriving DecidableEq

def DialogueNode.cls : DialogueNode → NodeClass
  | .choice _ => .choice
  | .quantifiable _ => .quantifiable
  | .question _ => .question
  | .interval _ => .interval
  | .slackUsers _ => .slackUsers
  | .notification _ => .notification
  | .endNode _ => .endNode

/-- The class of a possibly-`None` node; `none` stands for Python's
`NoneType` (as recorded by `add_node` when the deserializer hands it
`None`). -/
def optCls : Option DialogueNode → Option NodeClass :=
  Option.map DialogueNode.cls

/-! ### DialogueTree -/

inductive DataInjectionRequest
  | SlackUsers
deriving DecidableEq

/-- `DialogueTree`: the node map (a dict entry can hold `None`, see
`_deserialize`) and the set of present node classes. -/
structure DialogueTree where
  tree : List (ℤ × Option DialogueNode)
  present_node_types : Finset (Option NodeClass)
deriving DecidableEq

def DialogueTree.empty : DialogueTree := ⟨[], ∅⟩

/-- `DialogueTree.add_node`: store under the id (silently overwriting) and
record the node's class; nothing is ever removed from
`_present_node_types`. -/
def DialogueTree.add_node (t : DialogueTree) (id_ : ℤ)
    (node : Option DialogueNode) : DialogueTree :=
  ⟨pyDictSet t.tree id_ node, insert (optCls node) t.present_node_types⟩

/-- `DialogueTree.get_node`: `dict.get`; a stored `None` and a missing key
are indistinguishable here. -/
def DialogueTree.get_node (t : DialogueTree) (node_id : ℤ) :
    Option DialogueNode :=
  (pyDictGet t.tree node_id).bind (fun x => x)

/-- `DialogueTree.requested_data_injections`: derived from the present
classes only. -/
def DialogueTree.requested_data_injections (t : DialogueTree) :
    List DataInjectionRequest :=
  if some NodeClass.slackUsers ∈ t.present_node_types then
    [DataInjectionRequest.SlackUsers]
  else
    []

theorem mem_pyDictSet {α : Type} {l : List (ℤ × α)} {k : ℤ} {v : α}
    {p : ℤ × α} (hp : p ∈ pyDictSet l k v) :
    p = (k, v) ∨ (p ∈ l ∧ p.1 ≠ k) := by
  unfold pyDictSet at hp
  cases hex : l.any (fun q => decide (q.1 = k)) with
  | true =>
    rw [hex] at hp
    simp only [if_true] at hp
    obtain ⟨q, hq, hqe⟩ := List.mem_map.mp hp
    by_cases hqk : q.1 = k
    · left
      simpa [hqk] using hqe.symm
    · right
      rw [if_neg hqk] at hqe
      exact ⟨hqe ▸ hq, hqe ▸ hqk⟩
  | false =>
    rw [hex] at hp
    simp only [Bool.false_eq_true, if_false] at hp
    rcases List.mem_append.mp hp with hp | hp
    · right
      refine ⟨hp, fun hk => ?_⟩
      have := List.any_eq_false.mp hex p hp
      simp [hk] at this
    · left
      simpa using hp

/-! ### Claim C9 -/

/-- C9: the set of present classes only grows under `add_node`; and after
overwriting the only SlackUsers node (same id) with a non-SlackUsers node,
no SlackUsers node remains in the map yet `requested_data_injections` still
demands the SlackUsers injection. -/
theorem c9_present_node_types_only_grow :
    (∀ (t : DialogueTree) (id_ : ℤ) (n : Option DialogueNode),
        t.present_node_types ⊆ (t.add_node id_ n).present_node_types) ∧
      (∀ (t : DialogueTree) (id_ : ℤ) (n n' : Option DialogueNode),
        optCls n = some NodeClass.slackUsers →
        optCls n' ≠ some NodeClass.slackUsers →
        (∀ p ∈ t.tree, optCls p.2 ≠ some NodeClass.slackUsers) →
        (∀ p ∈ ((t.add_node id_ n).add_node id_ n').tree,
            optCls p.2 ≠ some NodeClass.slackUsers) ∧
          ((t.add_node id_ n).add_node id_ n').requested_data_injections =
            [DataInjectionRequest.SlackUsers]) := by
  constructor
  · intro t id_ n
    exact Finset.subset_insert _ _
  · intro t id_ n n' hn hn' hclean
    constructor
    · intro p hp
      rcases mem_pyDictSet hp with hp | ⟨hp, hpk⟩
      · rw [hp]
        exact hn'
      · rcases mem_pyDictSet hp with hp | ⟨hp, _⟩
        · exact absurd (congrArg Prod.fst hp) hpk
        · exact hclean p hp
    · unfold DialogueTree.requested_data_injections
      rw [if_pos]
      show some NodeClass.slackUsers ∈
        insert (optCls n') (insert (optCls n) t.present_node_types)
      rw [← hn]
      exact Finset.mem_insert_of_mem (Finset.mem_insert_self _ _)

/-- Concrete nodes for the C9 witness. -/
def c9SlackNode : Option DialogueNode :=
  some (.slackUsers ⟨5, "s", some 2, none⟩)

def c9EndNode : Option DialogueNode := some (.endNode ⟨5, "e"⟩)

/-- Witness for C9: overwrite the only SlackUsers node of a fresh tree with
an End node; the SlackUsers injection request survives. -/
theorem c9_present_node_types_only_grow_witness :
    optCls c9SlackNode = some NodeClass.slackUsers ∧
      optCls c9EndNode ≠ some NodeClass.slackUsers ∧
      ((∀ p ∈ ((DialogueTree.empty.add_node 1 c9SlackNode).add_node 1
            c9EndNode).tree,
          optCls p.2 ≠ some NodeClass.slackUsers) ∧
        ((DialogueTree.empty.add_node 1 c9SlackNode).add_node 1
              c9EndNode).requested_data_injections =
          [DataInjectionRequest.SlackUsers]) :=
  ⟨rfl, by decide,
    c9_present_node_types_only_grow.2 DialogueTree.empty 1 c9SlackNode
      c9EndNode rfl (by decide) (by intro p hp; simp [DialogueTree.empty] at hp)⟩

/-! ### Claim C10 -/

/-- C10: with no injected directory, `verify_answer` on a SlackUsers node
does not return an outcome (the embedded function is `none` there: the
source raises `AttributeError`); once a directory has been injected it
totally returns `Ok` or `SlackUserNotFound`. -/
theorem c10_slack_verify_answer_partial_without_injection :
    (∀ (id_ : ℤ) (text : String) (nn : Option ℤ) (answer : Option String),
        SlackUsersChooseDialogueNode.verify_answer ⟨id_, text, nn, none⟩
          answer = none) ∧
      (∀ (n : SlackUsersChooseDialogueNode) (data : List (ℤ × SlackUserVo))
          (answer : Option String),
        ∃ r, (n.inject_data data).verify_answer answer = some r ∧
          (r = AnswerVerificationResult.Ok ∨
            r = AnswerVerificationResult.SlackUserNotFound)) := by
  constructor
  · intro id_ text nn answer
    rfl
  · intro n data answer
    refine ⟨_, rfl, ?_⟩
    by_cases h : data.any (fun p => answer == p.2.profile__display_name)
    · left
      simp [h]
    · right
      simp [h]

/-! ### Transcript serialization (serde.py) -/

/-- A Python scalar value, as stored in an answer. -/
inductive PyVal
  | str (s : String)
  | int (n : ℤ)
  | float (q : ℚ)
deriving DecidableEq

/-- `AbstractAnswer`: node id, recorded value, timestamp. -/
structure AbstractAnswer where
  id : ℤ
  answer : Option PyVal
  time : ℚ
deriving DecidableEq

/-- `AbstractAnswer.to_dict`: the `{id, answer, time}` record. -/
def AbstractAnswer.to_dict (a : AbstractAnswer) : ℤ × Option PyVal × ℚ :=
  (a.id, a.answer, a.time)

/-- The `{time_start, time_end, answers}` dict built by the serializer. -/
structure SerializedTranscript where
  time_start : ℚ
  time_end : ℚ
  answers : List (ℤ × Option PyVal × ℚ)
deriving DecidableEq

/-- `JsonAnswerSerializer.serialize_as_dict`: maps `to_dict` over the
recorded answers and reads `answers[0]`/`answers[-1]` for the timestamps;
`none` models the `IndexError` raised on an empty transcript (`serialize`
performs the same computation and only adds `json.dumps`). -/
def JsonAnswerSerializer.serialize_as_dict
    (answers : List AbstractAnswer) : Option SerializedTranscript :=
  match pyIndex answers 0, pyIndex answers (-1) with
  | some first, some last =>
    some ⟨first.time, last.time, answers.map AbstractAnswer.to_dict⟩
  | _, _ => none

theorem pyIndex_zero {α : Type} (l : List α) (h : l ≠ []) :
    pyIndex l 0 = some (l.head h) := by
  cases l with
  | nil => exact absurd rfl h
  | cons a t => simp [pyIndex, pyIndexAt]

theorem pyIndex_neg_one {α : Type} (l : List α) (h : l ≠ []) :
    pyIndex l (-1) = some (l.getLast h) := by
  cases l with
  | nil => exact absurd rfl h
  | cons a t =>
    have h1 : pyIndex (a :: t) (-1) = pyIndexAt (a :: t) (t.length : ℤ) := by
      unfold pyIndex
      congr 1
      rw [if_pos (by omega)]
      simp
    rw [h1]
    have hc : (0 : ℤ) ≤ (t.length : ℤ) ∧
        ((t.length : ℤ)).toNat < (a :: t).length := by
      refine ⟨Int.ofNat_nonneg _, by simp⟩
    rw [pyIndexAt, dif_pos hc]
    congr 1
    have h2 : (a :: t).getLast h =
        (a :: t).get ⟨(a :: t).length - 1, by simp⟩ :=
      List.getLast_eq_getElem _ _
    rw [h2]
    congr 1

/-! ### Claim C4 -/

/-- C4 counterexample: serializing an empty transcript does not produce a
sentinel `-1` record — it fails (`answers[0]` raises `IndexError`, embedded
as `none`). -/
theorem c4_counterexample_empty_transcript_fails :
    JsonAnswerSerializer.serialize_as_dict [] = none := by
  rfl

/-- C4 as amended: serializing an empty transcript fails with `IndexError`
(it does not produce a `-1` sentinel), and for every non-empty transcript
the result is `{time_start, time_end, answers}` with `time_start` the first
recorded timestamp and `time_end` the last. -/
theorem c4_amended_serialize_nonempty (answers : List AbstractAnswer)
    (h : answers ≠ []) :
    JsonAnswerSerializer.serialize_as_dict answers =
      some ⟨(answers.head h).time, (answers.getLast h).time,
        answers.map AbstractAnswer.to_dict⟩ := by
  unfold JsonAnswerSerializer.serialize_as_dict
  rw [pyIndex_zero _ h, pyIndex_neg_one _ h]

/-- Concrete two-answer transcript for the C4 witness. -/
def c4Answers : List AbstractAnswer :=
  [⟨1, some (.str "x"), 100⟩, ⟨2, none, 200⟩]

/-- Witness for C4: the amended statement at a concrete two-answer
transcript. -/
theorem c4_amended_serialize_nonempty_witness :
    c4Answers ≠ [] ∧
      JsonAnswerSerializer.serialize_as_dict c4Answers =
        some ⟨(c4Answers.head (by decide)).time,
          (c4Answers.getLast (by decide)).time,
          c4Answers.map AbstractAnswer.to_dict⟩ :=
  ⟨by decide, c4_amended_serialize_nonempty c4Answers (by decide)⟩

/-! ### Deserialization (serde.py) -/

/-- One entry of an interval node's `choices` JSON list: either a
`[number, target_id]` pair or a bare number. -/
inductive IntervalChoiceDef
  | pair (num : ℚ) (target_id : ℤ)
  | bare (num : ℚ)
deriving DecidableEq

/-- A loosely-typed JSON node definition: the `type` discriminator, the
`text`, and the payload keys each variant's `from_dict` reads (`none` models
a missing key; `next_node : some none` models the key present with a JSON
`null`, whose `int(...)` raises the caught `TypeError`). -/
structure NodeDef where
  type : String
  text : String
  choices_map : Option (List (ℤ × String))
  choices_list : Option (List QuantChoiceDef)
  choices_interval : Option (List IntervalChoiceDef)
  min_value : Option ℚ
  max_value : Option ℚ
  next_node : Option (Option ℤ)
deriving DecidableEq

/-- `ChoiceDialogueNode.from_dict`: requires the `choices` dict (`none`
models the raised `KeyError`). -/
def ChoiceDialogueNode.from_dict (node_id : ℤ) (d : NodeDef) :
    Option ChoiceDialogueNode :=
  d.choices_map.map (fun m => ⟨node_id, d.text, m⟩)

/-- `QuantifiableDialogueNode.from_dict` adapted to a loose `NodeDef`:
requires the `choices` list. -/
def QuantifiableDialogueNode.from_dictDef (node_id : ℤ) (d : NodeDef) :
    Option QuantifiableDialogueNode :=
  d.choices_list.map (fun cl =>
    QuantifiableDialogueNode.from_dict node_id
      ⟨d.text, d.min_value, d.max_value, cl⟩)

/-- `GenericQuestionDialogueNode.from_dict`: requires the `next_node` key;
a `null` value becomes `None` via the caught `TypeError`. -/
def GenericQuestionDialogueNode.from_dict (node_id : ℤ) (d : NodeDef) :
    Option GenericQuestionDialogueNode :=
  d.next_node.map (fun nn => ⟨node_id, d.text, nn⟩)

/-- `SlackUsersChooseDialogueNode.from_dict`: like the generic question; a
freshly built node has no injected data. -/
def SlackUsersChooseDialogueNode.from_dict (node_id : ℤ) (d : NodeDef) :
    Option SlackUsersChooseDialogueNode :=
  d.next_node.map (fun nn => ⟨node_id, d.text, nn, none⟩)

/-- Modelled from the spec: `NotificationNode.from_dict`, same shape as
GenericQuestion (the class is missing from `nodes.py`). -/
def NotificationNode.from_dict (node_id : ℤ) (d : NodeDef) :
    Option NotificationNode :=
  d.next_node.map (fun nn => ⟨node_id, d.text, nn⟩)

/-- `IntervalDialogueNode.from_dict`: a `[number, target_id]` entry is kept,
a bare number becomes `(number, -1)`. -/
def IntervalDialogueNode.from_dict (node_id : ℤ) (d : NodeDef) :
    Option IntervalDialogueNode :=
  d.choices_interval.map (fun l =>
    ⟨node_id, d.text, l.map (fun c =>
      match c with
      | .pair num tid => (num, tid)
      | .bare num => (num, -1))⟩)

/-- `EndDialogueNode.from_dict`. -/
def EndDialogueNode.from_dict (node_id : ℤ) (d : NodeDef) :
    Option EndDialogueNode :=
  some ⟨node_id, d.text⟩

/-- `JsonNode.node_from_def`: string dispatch on the `type` discriminator in
source order; an unrecognized discriminator yields Python `None`
(`some none`), a failing `from_dict` propagates its exception (`none`). -/
def JsonNode.node_from_def (node_id : ℤ) (d : NodeDef) :
    Option (Option DialogueNode) :=
  if d.type = "choice" then
    (ChoiceDialogueNode.from_dict node_id d).map (fun n => some (.choice n))
  else if d.type = "quantifiable" then
    (QuantifiableDialogueNode.from_dictDef node_id d).map
      (fun n => some (.quantifiable n))
  else if d.type = "question" then
    (GenericQuestionDialogueNode.from_dict node_id d).map
      (fun n => some (.question n))
  else if d.type = "slack_users" then
    (SlackUsersChooseDialogueNode.from_dict node_id d).map
      (fun n => some (.slackUsers n))
  else if d.type = "interval" then
    (IntervalDialogueNode.from_dict node_id d).map
      (fun n => some (.interval n))
  else if d.type = "notification" then
    (NotificationNode.from_dict node_id d).map
      (fun n => some (.notification n))
  else if d.type = "end" then
    (EndDialogueNode.from_dict node_id d).map (fun n => some (.endNode n))
  else
    some none

/-- `AbstractJsonDeserializer._deserialize`: for each `(node_id, node_def)`
build the node (possibly `None`) and `add_node` it — note that a `None`
result is stored too; an exception aborts the whole deserialization. -/
def AbstractJsonDeserializer._deserialize (nodes : List (ℤ × NodeDef)) :
    Option DialogueTree :=
  nodes.foldlM
    (fun t p => (JsonNode.node_from_def p.1 p.2).map
      (fun nd => t.add_node p.1 nd))
    DialogueTree.empty

theorem pyDictGet_append {α : Type} (l1 l2 : List (ℤ × α)) (k : ℤ) :
    pyDictGet (l1 ++ l2) k = (pyDictGet l1 k).or (pyDictGet l2 k) := by
  induction l1 with
  | nil => simp [pyDictGet]
  | cons q t ih => by_cases h : k = q.1 <;> simp [pyDictGet, h, ih]

theorem pyDictGet_eq_none_of_any_false {α : Type} {l : List (ℤ × α)} {k : ℤ}
    (h : l.any (fun q => decide (q.1 = k)) = false) :
    pyDictGet l k = none := by
  induction l with
  | nil => rfl
  | cons q t ih =>
    simp only [List.any_cons, Bool.or_eq_false_iff, decide_eq_false_iff_not]
      at h
    rw [pyDictGet, if_neg (fun hk => h.1 hk.symm)]
    exact ih h.2

theorem pyDictGet_map_set_self {α : Type} {l : List (ℤ × α)} {k : ℤ} (v : α)
    (h : l.any (fun q => decide (q.1 = k)) = true) :
    pyDictGet (l.map (fun p => if p.1 = k then (k, v) else p)) k = some v := by
  induction l with
  | nil => simp at h
  | cons q t ih =>
    by_cases hq : q.1 = k
    · simp only [List.map_cons, if_pos hq]
      rw [pyDictGet, if_pos rfl]
    · simp only [List.any_cons, Bool.or_eq_true, decide_eq_true_eq] at h
      rcases h with h | h
      · exact absurd h hq
      · simp only [List.map_cons, if_neg hq]
        rw [pyDictGet, if_neg (fun hk => hq hk.symm)]
        exact ih h

theorem pyDictGet_map_set_other {α : Type} (l : List (ℤ × α)) (k : ℤ) (v : α)
    (k' : ℤ) (hne : k' ≠ k) :
    pyDictGet (l.map (fun p => if p.1 = k then (k, v) else p)) k' =
      pyDictGet l k' := by
  induction l with
  | nil => rfl
  | cons q t ih =>
    by_cases hq : q.1 = k
    · simp only [List.map_cons, if_pos hq]
      rw [pyDictGet, if_neg hne, pyDictGet, if_neg (fun hk => hne (hk.trans hq))]
      exact ih
    · simp only [List.map_cons, if_neg hq]
      by_cases hkq : k' = q.1
      · rw [pyDictGet, if_pos hkq, pyDictGet, if_pos hkq]
      · rw [pyDictGet, if_neg hkq, pyDictGet, if_neg hkq]
        exact ih

/-- Lookup after `pyDictSet`: the set key reads back the new value, other
keys are untouched. -/
theorem pyDictGet_pyDictSet {α : Type} (l : List (ℤ × α)) (k : ℤ) (v : α)
    (k' : ℤ) :
    pyDictGet (pyDictSet l k v) k' =
      if k' = k then some v else pyDictGet l k' := by
  unfold pyDictSet
  cases hex : l.any (fun q => decide (q.1 = k)) with
  | true =>
    simp only [if_true]
    by_cases hk' : k' = k
    · subst hk'
      rw [if_pos rfl]
      exact pyDictGet_map_set_self v hex
    · rw [if_neg hk']
      exact pyDictGet_map_set_other l k v k' hk'
  | false =>
    simp only [Bool.false_eq_true, if_false]
    rw [pyDictGet_append]
    by_cases hk' : k' = k
    · subst hk'
      rw [pyDictGet_eq_none_of_any_false hex, if_pos rfl]
      simp [pyDictGet]
    · rw [if_neg hk']
      have : pyDictGet [(k, v)] k' = none := by
        simp [pyDictGet, hk']
      rw [this]
      cases pyDictGet l k' <;> rfl

/-! ### Claim C5 -/

/-- A node definition whose `type` discriminator is in no dispatch branch. -/
def c5BogusDef : NodeDef := ⟨"bogus", "t", none, none, none, none, none, none⟩

/-- A recognized `end` node definition. -/
def c5EndDef : NodeDef := ⟨"end", "bye", none, none, none, none, none, none⟩

/-- C5 counterexample: deserializing a single node with an unrecognized
`type` does *not* leave the node map without an entry for its id — the map
ends up with the entry `(4, None)`: `node_from_def` returns `None` and
`_deserialize` still calls `add_node` with it. -/
theorem c5_counterexample_unknown_type_entry_present :
    (AbstractJsonDeserializer._deserialize [(4, c5BogusDef)]).map
        (fun t => t.tree) = some [(4, none)] ∧
      (AbstractJsonDeserializer._deserialize [(4, c5BogusDef)]).map
        (fun t => t.tree.map Prod.fst) = some [4] := by
  refine ⟨by decide, by decide⟩

theorem deserialize_go (step : DialogueTree → ℤ × NodeDef →
      Option DialogueTree)
    (hstep : step = fun t p => (JsonNode.node_from_def p.1 p.2).map
      (fun nd => t.add_node p.1 nd))
    (defs : List (ℤ × NodeDef)) :
    ∀ t0 : DialogueTree,
      (∀ p ∈ defs, (JsonNode.node_from_def p.1 p.2).isSome) →
      (defs.map Prod.fst).Nodup →
      ∃ t, defs.foldlM step t0 = some t ∧
        (∀ p ∈ defs, pyDictGet t.tree p.1 = JsonNode.node_from_def p.1 p.2) ∧
        (∀ k, k ∉ defs.map Prod.fst →
          pyDictGet t.tree k = pyDictGet t0.tree k) := by
  induction defs with
  | nil =>
    intro t0 _ _
    exact ⟨t0, rfl, by simp, fun k _ => rfl⟩
  | cons hd tl ih =>
    intro t0 hsome hnodup
    obtain ⟨v, hv⟩ := Option.isSome_iff_exists.mp (hsome hd (by simp))
    have hnodup' : (tl.map Prod.fst).Nodup := (List.nodup_cons.mp hnodup).2
    have hhd : hd.1 ∉ tl.map Prod.fst := (List.nodup_cons.mp hnodup).1
    obtain ⟨t, ht, hin, hout⟩ := ih (t0.add_node hd.1 v)
      (fun p hp => hsome p (by simp [hp])) hnodup'
    refine ⟨t, ?_, ?_, ?_⟩
    · rw [List.foldlM_cons, hstep]
      simp only [hv, Option.map_some]
      rw [← hstep]
      exact ht
    · intro p hp
      rcases List.mem_cons.mp hp with hp | hp
      · subst hp
        rw [hout p.1 hhd]
        show pyDictGet (pyDictSet t0.tree p.1 v) p.1 = _
        rw [pyDictGet_pyDictSet, if_pos rfl, hv]
      · exact hin p hp
    · intro k hk
      have hk1 : k ∉ tl.map Prod.fst := fun h => hk (by simp [h])
      have hk2 : k ≠ hd.1 := fun h => hk (by simp [h])
      rw [hout k hk1]
      show pyDictGet (pyDictSet t0.tree hd.1 v) k = _
      rw [pyDictGet_pyDictSet, if_neg hk2]

/-- C5 as amended: an unrecognized `type` discriminator does not omit the
node's id from the tree's node map — the id is mapped to a `None` node
(observable through `get_nodes`, though `get_node` cannot distinguish it
from an absent id), and every recognized node definition is still built:
for well-formed definitions with distinct ids, looking up each id yields
exactly what `node_from_def` produced for it (`some none` for unrecognized
types, the built node otherwise). -/
theorem c5_amended_unknown_type_maps_id_to_none
    (defs : List (ℤ × NodeDef))
    (hsome : ∀ p ∈ defs, (JsonNode.node_from_def p.1 p.2).isSome)
    (hnodup : (defs.map Prod.fst).Nodup) :
    ∃ t, AbstractJsonDeserializer._deserialize defs = some t ∧
      ∀ p ∈ defs, pyDictGet t.tree p.1 = JsonNode.node_from_def p.1 p.2 := by
  obtain ⟨t, ht, hin, _⟩ :=
    deserialize_go _ rfl defs DialogueTree.empty hsome hnodup
  exact ⟨t, ht, hin⟩

/-- Witness for C5: a two-node input (one bogus type, one `end`); the bogus
id 4 is looked up to `some none` — present, mapped to `None`. -/
theorem c5_amended_unknown_type_maps_id_to_none_witness :
    (∀ p ∈ [(4, c5BogusDef), (7, c5EndDef)],
        (JsonNode.node_from_def p.1 p.2).isSome) ∧
      (([(4, c5BogusDef), (7, c5EndDef)].map Prod.fst).Nodup) ∧
      (∃ t, AbstractJsonDeserializer._deserialize
            [(4, c5BogusDef), (7, c5EndDef)] = some t ∧
          ∀ p ∈ [(4, c5BogusDef), (7, c5EndDef)],
            pyDictGet t.tree p.1 = JsonNode.node_from_def p.1 p.2) :=
  ⟨by decide, by decide,
    c5_amended_unknown_type_maps_id_to_none [(4, c5BogusDef), (7, c5EndDef)]
      (by decide) (by decide)⟩

/-! ### The interpreter (interpreter.py) -/

/-- The per-node behavior the interpreter consumes.  `verify` returns the
`(verification_result, answer_data)` pair `AbstractInterpreter.run`
destructures; `isEnd` is `isinstance(node, AbstractEndNode)`; `question` is
the rendered `get_question()`; `get_next` maps the raw answer to the next
node id (`none` = Python `None`). -/
structure InterpNode where
  id : ℤ
  isEnd : Bool
  question : String
  verify : Option String → AnswerVerificationResult × Option PyVal
  get_next : Option String → Option ℤ

/-- The interpreter's observable state: current node, cursor into the input
stream, recorded `(node_id, value)` answers, displayed texts, and whether
`_end_dialogue` has been signalled. -/
structure InterpState where
  current : InterpNode
  pos : ℕ
  transcript : List (ℤ × Option PyVal)
  display : List String
  finished : Bool

/-- The literal retry suffix from
`await self._display_text(f..., please try again...)`. -/
def retrySuffix : String := ", please try again...\n"

/-- One iteration of `AbstractInterpreter.run`'s `while True` loop:
display the question; obtain an answer unless the node is terminal; verify;
on `Ok` record the answer (`answer_data` if not `None`, else the raw
answer) and advance (ending the dialogue when the resolved node does not
exist); otherwise display the outcome's message plus the retry prompt and
change nothing else.  (`to_message` is applied to the outcome alone: the
two-argument `to_message` the interpreter calls is missing from `nodes.py`,
and per the spec the rendered text is the outcome's message.) -/
def AbstractInterpreter.step (tree : Option ℤ → Option InterpNode)
    (inputs : ℕ → String) (s : InterpState) : InterpState :=
  if s.finished then s
  else
    let node := s.current
    let answer : Option String :=
      if node.isEnd then none else some (inputs s.pos)
    let pos' := if node.isEnd then s.pos else s.pos + 1
    let vr := node.verify answer
    if vr.1 = AnswerVerificationResult.Ok then
      let recorded : ℤ × Option PyVal :=
        (node.id, match vr.2 with
          | some d => some d
          | none => answer.map PyVal.str)
      match tree (node.get_next answer) with
      | none =>
        ⟨node, pos', s.transcript ++ [recorded],
          s.display ++ [node.question], true⟩
      | some nd =>
        ⟨nd, pos', s.transcript ++ [recorded],
          s.display ++ [node.question], false⟩
    else
      ⟨node, pos', s.transcript,
        s.display ++ [node.question,
          (vr.1.to_message.getD "None") ++ retrySuffix], false⟩

/-! ### Claim C7 -/

/-- C7: a non-`Ok` verification outcome leaves the current node and the
transcript unchanged and only renders the outcome's message plus the retry
prompt; and from any state at a non-terminal node, one invalid answer
followed by one valid answer re-prompts exactly once and records exactly
one answer for that node. -/
theorem c7_interpreter_reprompts_without_recording :
    (∀ (tree : Option ℤ → Option InterpNode) (inputs : ℕ → String)
        (s : InterpState),
      s.finished = false →
      (s.current.verify
          (if s.current.isEnd then none else some (inputs s.pos))).1 ≠
        AnswerVerificationResult.Ok →
      (AbstractInterpreter.step tree inputs s).current = s.current ∧
        (AbstractInterpreter.step tree inputs s).transcript = s.transcript ∧
        (AbstractInterpreter.step tree inputs s).display =
          s.display ++ [s.current.question,
            ((s.current.verify
                (if s.current.isEnd then none
                  else some (inputs s.pos))).1.to_message.getD "None") ++
              retrySuffix] ∧
        (AbstractInterpreter.step tree inputs s).finished = false) ∧
      (∀ (tree : Option ℤ → Option InterpNode) (inputs : ℕ → String)
          (n : InterpNode) (t0 : List (ℤ × Option PyVal))
          (d0 : List String) (p0 : ℕ),
        n.isEnd = false →
        (n.verify (some (inputs p0))).1 ≠ AnswerVerificationResult.Ok →
        (n.verify (some (inputs (p0 + 1)))).1 = AnswerVerificationResult.Ok →
        (AbstractInterpreter.step tree inputs
              (AbstractInterpreter.step tree inputs
                ⟨n, p0, t0, d0, false⟩)).transcript =
            t0 ++ [(n.id, match (n.verify (some (inputs (p0 + 1)))).2 with
              | some d => some d
              | none => some (.str (inputs (p0 + 1))))] ∧
          (AbstractInterpreter.step tree inputs
              (AbstractInterpreter.step tree inputs
                ⟨n, p0, t0, d0, false⟩)).display =
            d0 ++ [n.question,
              ((n.verify (some (inputs p0))).1.to_message.getD "None") ++
                retrySuffix, n.question] ∧
          (AbstractInterpreter.step tree inputs
              (AbstractInterpreter.step tree inputs
                ⟨n, p0, t0, d0, false⟩)).pos = p0 + 2) := by
  constructor
  · intro tree inputs s hfin hnotok
    unfold AbstractInterpreter.step
    rw [hfin]
    simp only [Bool.false_eq_true, if_false, if_neg hnotok]
    exact ⟨trivial, trivial, trivial, trivial⟩
  · intro tree inputs n t0 d0 p0 hend hbad hok
    have hstep1 : AbstractInterpreter.step tree inputs ⟨n, p0, t0, d0, false⟩ =
        ⟨n, p0 + 1, t0, d0 ++ [n.question,
          ((n.verify (some (inputs p0))).1.to_message.getD "None") ++
            retrySuffix], false⟩ := by
      unfold AbstractInterpreter.step
      simp only [hend, Bool.false_eq_true, if_false, if_neg hbad]
    rw [hstep1]
    unfold AbstractInterpreter.step
    simp only [hend, Bool.false_eq_true, if_false, hok, if_pos]
    cases htree : tree (n.get_next (some (inputs (p0 + 1)))) with
    | none => refine ⟨by simp, by simp, rfl⟩
    | some nd => refine ⟨by simp, by simp, rfl⟩

/-- Concrete node, inputs and tree for the C7 witness. -/
def c7Node : InterpNode :=
  ⟨1, false, "q?",
    fun a => if a = some "good" then (.Ok, none) else (.OutOfRange, none),
    fun _ => none⟩

def c7Inputs : ℕ → String := fun i => if i = 0 then "bad" else "good"

def c7Tree : Option ℤ → Option InterpNode := fun _ => none

/-- Witness for C7: at a node that rejects `"bad"` and accepts `"good"`,
two loop iterations record exactly one answer and display exactly one retry
prompt. -/
theorem c7_interpreter_reprompts_without_recording_witness :
    c7Node.isEnd = false ∧
      (c7Node.verify (some (c7Inputs 0))).1 ≠ AnswerVerificationResult.Ok ∧
      (c7Node.verify (some (c7Inputs (0 + 1)))).1 =
        AnswerVerificationResult.Ok ∧
      ((AbstractInterpreter.step c7Tree c7Inputs
            (AbstractInterpreter.step c7Tree c7Inputs
              ⟨c7Node, 0, [], [], false⟩)).transcript =
          [] ++ [(c7Node.id,
            match (c7Node.verify (some (c7Inputs (0 + 1)))).2 with
            | some d => some d
            | none => some (.str (c7Inputs (0 + 1))))] ∧
        (AbstractInterpreter.step c7Tree c7Inputs
            (AbstractInterpreter.step c7Tree c7Inputs
              ⟨c7Node, 0, [], [], false⟩)).display =
          [] ++ [c7Node.question,
            ((c7Node.verify (some (c7Inputs 0))).1.to_message.getD "None") ++
              retrySuffix, c7Node.question] ∧
        (AbstractInterpreter.step c7Tree c7Inputs
            (AbstractInterpreter.step c7Tree c7Inputs
              ⟨c7Node, 0, [], [], false⟩)).pos = 0 + 2) :=
  ⟨rfl, by decide, by decide,
    c7_interpreter_reprompts_without_recording.2 c7Tree c7Inputs c7Node [] []
      0 rfl (by decide) (by decide)⟩

/-! ### Graph data and breadth-first reachability (tree.py) -/

/-- `TreeDialogueValidator._get_target_ids`: forward target ids per variant;
Python `None` (`none`) for a `None` node or a variant outside the
`isinstance` chain (the chain has no Notification branch). -/
def TreeDialogueValidator._get_target_ids :
    Option DialogueNode → Option (List ℤ)
  | some (.choice n) => some (n.choices.map Prod.fst)
  | some (.quantifiable n) => some (n.choices.map Prod.fst)
  | some (.question n) =>
    some (match n.next_node with | some t => [t] | none => [])
  | some (.slackUsers n) =>
    some (match n.next_node with | some t => [t] | none => [])
  | some (.interval n) => some (n.choices.map Prod.snd)
  | some (.endNode _) => some []
  | some (.notification _) => none
  | none => none

/-- `TreeDialogueValidator._mk_graph_data`: node id ↦ target-id list (or
`None`), in node-map order. -/
def TreeDialogueValidator._mk_graph_data (t : DialogueTree) :
    List (ℤ × Option (List ℤ)) :=
  t.tree.map (fun p => (p.1, TreeDialogueValidator._get_target_ids p.2))

/-- The targets pushed for a popped node: `graph.get(node_id)` (skipping a
`None` or empty entry is the same as iterating nothing), filtered by the
updated visited set, as in the source. -/
def bfsSuccs (g : List (ℤ × Option (List ℤ))) (visited : Finset ℤ)
    (n : ℤ) : List ℤ :=
  (((pyDictGet g n).bind (fun o => o)).getD []).filter
    (fun t => decide (t ∉ visited))

theorem pyDictGet_eq_none_of_not_mem {α : Type} {l : List (ℤ × α)} {k : ℤ}
    (h : k ∉ l.map Prod.fst) : pyDictGet l k = none := by
  induction l with
  | nil => rfl
  | cons q t ih =>
    simp only [List.map_cons, List.mem_cons, not_or] at h
    rw [pyDictGet, if_neg h.1]
    exact ih h.2

/-- The key set of the compact graph data (what bounds the visited set's
useful growth). -/
def graphKeys (g : List (ℤ × Option (List ℤ))) : Finset ℤ :=
  (g.map Prod.fst).toFinset

theorem bfsSuccs_of_not_key {g : List (ℤ × Option (List ℤ))}
    {visited : Finset ℤ} {n : ℤ} (h : n ∉ graphKeys g) :
    bfsSuccs g visited n = [] := by
  have hn : n ∉ g.map Prod.fst := fun hm => h (List.mem_toFinset.mpr hm)
  unfold bfsSuccs
  rw [pyDictGet_eq_none_of_not_mem hn]
  rfl

theorem sdiff_insert_of_not_mem_key {g : List (ℤ × Option (List ℤ))}
    {visited : Finset ℤ} {n : ℤ} (h : n ∉ graphKeys g) :
    graphKeys g \ insert n visited = graphKeys g \ visited := by
  ext x
  simp only [Finset.mem_sdiff, Finset.mem_insert, not_or]
  constructor
  · rintro ⟨hx, _, hv⟩
    exact ⟨hx, hv⟩
  · rintro ⟨hx, hv⟩
    exact ⟨hx, fun he => h (he ▸ hx), hv⟩

theorem sdiff_insert_card_lt {g : List (ℤ × Option (List ℤ))}
    {visited : Finset ℤ} {n : ℤ} (hk : n ∈ graphKeys g)
    (hv : n ∉ visited) :
    (graphKeys g \ insert n visited).card < (graphKeys g \ visited).card := by
  have h1 : graphKeys g \ insert n visited = (graphKeys g \ visited).erase n := by
    ext x
    simp only [Finset.mem_sdiff, Finset.mem_insert, not_or, Finset.mem_erase]
    tauto
  rw [h1]
  exact Finset.card_erase_lt_of_mem (Finset.mem_sdiff.mpr ⟨hk, hv⟩)

/-- The loop of `TreeDialogueValidator._check_path_exists`: pop; skip
visited nodes; an unvisited node equal to `to_node` returns `True`;
otherwise mark visited and push its not-yet-visited targets.  (The
`checked_path` bookkeeping of the source never influences the returned
value and is omitted.) -/
def TreeDialogueValidator.checkPathAux (g : List (ℤ × Option (List ℤ)))
    (to_node : ℤ) (visited : Finset ℤ) (queue : List ℤ) : Bool :=
  match queue with
  | [] => false
  | n :: rest =>
    if hv : n ∈ visited then
      TreeDialogueValidator.checkPathAux g to_node visited rest
    else if n = to_node then
      true
    else
      TreeDialogueValidator.checkPathAux g to_node (insert n visited)
        (rest ++ bfsSuccs g (insert n visited) n)
termination_by ((graphKeys g \ visited).card, queue.length)
decreasing_by
  · apply Prod.Lex.right
    simp
  · by_cases hk : n ∈ graphKeys g
    · exact Prod.Lex.left _ _ (sdiff_insert_card_lt hk hv)
    · rw [sdiff_insert_of_not_mem_key hk, bfsSuccs_of_not_key hk]
      apply Prod.Lex.right
      simp

/-- The same loop without the early exit, collecting the popped unvisited
nodes: a single breadth-first pass computing the reachable set over the
same adjacency data (the spec's optimized formulation). -/
def TreeDialogueValidator.bfsVisitedAux (g : List (ℤ × Option (List ℤ)))
    (visited : Finset ℤ) (queue : List ℤ) : List ℤ :=
  match queue with
  | [] => []
  | n :: rest =>
    if hv : n ∈ visited then
      TreeDialogueValidator.bfsVisitedAux g visited rest
    else
      n :: TreeDialogueValidator.bfsVisitedAux g (insert n visited)
        (rest ++ bfsSuccs g (insert n visited) n)
termination_by ((graphKeys g \ visited).card, queue.length)
decreasing_by
  · apply Prod.Lex.right
    simp
  · by_cases hk : n ∈ graphKeys g
    · exact Prod.Lex.left _ _ (sdiff_insert_card_lt hk hv)
    · rw [sdiff_insert_of_not_mem_key hk, bfsSuccs_of_not_key hk]
      apply Prod.Lex.right
      simp

/-- `TreeDialogueValidator._check_path_exists`: fresh BFS from node `1`. -/
def TreeDialogueValidator._check_path_exists
    (g : List (ℤ × Option (List ℤ))) (to_node : ℤ) : Bool :=
  TreeDialogueValidator.checkPathAux g to_node ∅ [1]

/-- The single reachable-set from node `1` over the same adjacency data. -/
def reachable_from_root (g : List (ℤ × Option (List ℤ))) : List ℤ :=
  TreeDialogueValidator.bfsVisitedAux g ∅ [1]

theorem checkPathAux_eq_mem (g : List (ℤ × Option (List ℤ))) (to_node : ℤ) :
    ∀ (visited : Finset ℤ) (queue : List ℤ), to_node ∉ visited →
      (TreeDialogueValidator.checkPathAux g to_node visited queue = true ↔
        to_node ∈ TreeDialogueValidator.bfsVisitedAux g visited queue) := by
  intro visited queue
  induction visited, queue using TreeDialogueValidator.bfsVisitedAux.induct g
    with
  | case1 visited =>
    intro _
    simp [TreeDialogueValidator.checkPathAux,
      TreeDialogueValidator.bfsVisitedAux]
  | case2 visited n rest hv ih =>
    intro hto
    rw [TreeDialogueValidator.checkPathAux, TreeDialogueValidator.bfsVisitedAux]
    rw [dif_pos hv, dif_pos hv]
    exact ih hto
  | case3 visited n rest hv ih =>
    intro hto
    rw [TreeDialogueValidator.checkPathAux, TreeDialogueValidator.bfsVisitedAux]
    rw [dif_neg hv, dif_neg hv]
    by_cases hton : n = to_node
    · subst hton
      simp
    · rw [if_neg hton]
      have hto' : to_node ∉ insert n visited := by
        simp only [Finset.mem_insert, not_or]
        exact ⟨fun he => hton he.symm, hto⟩
      rw [ih hto']
      constructor
      · intro hmem
        exact List.mem_cons_of_mem _ hmem
      · intro hmem
        rcases List.mem_cons.mp hmem with he | hmem
        · exact absurd he.symm hton
        · exact hmem

/-! ### Validation reports (tree.py) -/

/-- The validation report variants, each carrying the data its constructor
stores. -/
inductive Report
  | invalidChoiceNoAnswer (node_id : ℤ) (invalid_choices_ids : List ℤ)
  | invalidQuantifiableChoice (node_id : ℤ)
      (invalid_choices : List (ℤ × ℚ × ℚ))
  | invalidIntervalSameNumber (node_id : ℤ) (target_id : ℤ) (n : ℚ)
  | noEdgesOnNode (node_id : ℤ)
  | nodeNotTraversableToNodeId1 (node_id : ℤ)
  | invalidSubmit (node_id : ℤ)
  | invalidNodeName (node_id : ℤ) (node_text : String)
  | invalidTargetNodeId (node_id : ℤ) (target_node_ids : List ℤ)
  | invalidIntervalSameTargetId (node_id : ℤ) (target_id : ℤ)
  | invalidQuantifiableNoneChoice (node_id : ℤ)
deriving DecidableEq

/-- `AbstractValidationReport.node_id`. -/
def Report.nid : Report → ℤ
  | .invalidChoiceNoAnswer i _ => i
  | .invalidQuantifiableChoice i _ => i
  | .invalidIntervalSameNumber i _ _ => i
  | .noEdgesOnNode i => i
  | .nodeNotTraversableToNodeId1 i => i
  | .invalidSubmit i => i
  | .invalidNodeName i _ => i
  | .invalidTargetNodeId i _ => i
  | .invalidIntervalSameTargetId i _ => i
  | .invalidQuantifiableNoneChoice i => i

/-- `ValidationReportSummary.add_reports` for one report: create the node's
bucket when missing or falsy, then append. -/
def addReport (s : List (ℤ × List Report)) (r : Report) :
    List (ℤ × List Report) :=
  match pyDictGet s r.nid with
  | some l =>
    if l.isEmpty then pyDictSet s r.nid [r] else pyDictSet s r.nid (l ++ [r])
  | none => s ++ [(r.nid, [r])]

/-- `ValidationReportSummary.add_reports`. -/
def add_reports (s : List (ℤ × List Report)) (reports : List Report) :
    List (ℤ × List Report) :=
  reports.foldl addReport s

/-! ### Per-variant validation (tree.py) -/

/-- `TreeDialogueValidator._validate_node_name` (the embedded `text` is
always a string; the `is None` disjunct of the source cannot fire). -/
def TreeDialogueValidator._validate_node_name (node_id : ℤ) (text : String) :
    Option Report :=
  if text = "" then some (.invalidNodeName node_id text) else none

/-- `TreeDialogueValidator._validate_target_id`: a target id is valid iff it
is the id of some node in the map (a Python `None` target is invalid). -/
def TreeDialogueValidator._validate_target_id (t : DialogueTree)
    (target_id : Option ℤ) : Bool :=
  match target_id with
  | none => false
  | some tid => t.tree.any (fun p => tid = p.1)

/-- The name report as a (zero- or one-element) list. -/
def nameReports (node_id : ℤ) (text : String) : List Report :=
  match TreeDialogueValidator._validate_node_name node_id text with
  | some r => [r]
  | none => []

/-- `TreeDialogueValidator._validate_choice_node`. -/
def TreeDialogueValidator._validate_choice_node (t : DialogueTree)
    (node : ChoiceDialogueNode) : Option (List Report) :=
  let invalid_choices :=
    (node.choices.filter (fun c => c.2 = "")).map Prod.fst
  let invalid_target_ids :=
    (node.choices.filter
      (fun c => !(TreeDialogueValidator._validate_target_id t (some c.1)))).map
      Prod.fst
  let reports : List Report := nameReports node.id node.text
    ++ (if invalid_choices.length ≠ 0 then
        [.invalidChoiceNoAnswer node.id invalid_choices] else [])
    ++ (if invalid_target_ids.length > 0 then
        [.invalidTargetNodeId node.id invalid_target_ids] else [])
    ++ (if node.choices.length = 0 then [.noEdgesOnNode node.id] else [])
  if reports.length = 0 then none else some reports

/-- Stable insertion of an entry into a min-sorted quantifiable choice
list (`getD 0` keys are only read when every bound is present — otherwise
the caller has already raised). -/
def insertByMin (x : ℤ × QuantifiableChoice) :
    List (ℤ × QuantifiableChoice) → List (ℤ × QuantifiableChoice)
  | [] => [x]
  | y :: t =>
    if y.2.min.getD 0 < x.2.min.getD 0 then y :: insertByMin x t
    else x :: y :: t

/-- Python `sorted(..., key=lambda c: c[1].min)`: with two or more entries
every element takes part in at least one key comparison, so any `None` min
raises `TypeError`; otherwise a stable sort by `min`. -/
def sortQuantChoices (l : List (ℤ × QuantifiableChoice)) :
    Except PyErr (List (ℤ × QuantifiableChoice)) :=
  if 2 ≤ l.length ∧ l.any (fun c => c.2.min.isNone) = true then
    .error .typeError
  else
    .ok (l.foldr insertByMin [])

/-- The gap/degeneracy loop of `_validate_quantifiable_node`, carrying the
previous entry: a `None` bound constructs (and discards) the
`InvalidQuantifiableNoneChoice` report and breaks; returns
`(invalid_target_ids, invalid_choices)` in iteration order. -/
def quantLoop (t : DialogueTree) :
    List (ℤ × QuantifiableChoice) → Option (ℤ × ℚ × ℚ) →
      List ℤ × List (ℤ × ℚ × ℚ)
  | [], _ => ([], [])
  | (tid, c) :: rest, last =>
    match c.min, c.max with
    | some mn, some mx =>
      let itids :=
        if TreeDialogueValidator._validate_target_id t (some tid) then []
        else [tid]
      let ics1 := if mn = mx then [(tid, mn, mx)] else []
      let ics2 := match last with
        | some (ltid, lmn, lmx) => if mn ≠ lmx then [(ltid, lmn, lmx)] else []
        | none => []
      let r := quantLoop t rest (some (tid, mn, mx))
      (itids ++ r.1, ics1 ++ ics2 ++ r.2)
    | _, _ => ([], [])

/-- `TreeDialogueValidator._validate_quantifiable_node`: sorting the choices
by `min` can raise `TypeError` on `None` bounds; otherwise the gap,
degenerate-range, target-id and no-edges checks. -/
def TreeDialogueValidator._validate_quantifiable_node (t : DialogueTree)
    (node : QuantifiableDialogueNode) :
    Except PyErr (Option (List Report)) :=
  match sortQuantChoices node.choices with
  | .error e => .error e
  | .ok sorted_choices =>
    let r := quantLoop t sorted_choices none
    let reports : List Report := nameReports node.id node.text
      ++ (if r.2.length ≠ 0 then
          [.invalidQuantifiableChoice node.id r.2] else [])
      ++ (if r.1.length > 0 then
          [.invalidTargetNodeId node.id r.1] else [])
      ++ (if node.choices.length = 0 then [.noEdgesOnNode node.id] else [])
    .ok (if reports.length > 0 then some reports else none)

/-- `TreeDialogueValidator._validate_one_answer_node` (used for
GenericQuestion and SlackUsers nodes). -/
def TreeDialogueValidator._validate_one_answer_node (t : DialogueTree)
    (node_id : ℤ) (text : String) (next_node : Option ℤ) :
    Option (List Report) :=
  let more := match next_node with
    | none => [Report.noEdgesOnNode node_id]
    | some nn =>
      if TreeDialogueValidator._validate_target_id t (some nn) then []
      else [Report.invalidTargetNodeId node_id [nn]]
  let reports : List Report := nameReports node_id text ++ more
  if reports.length > 0 then some reports else none

/-- Stable insertion of an interval entry into a threshold-sorted list. -/
def insertByNum (x : ℚ × ℤ) : List (ℚ × ℤ) → List (ℚ × ℤ)
  | [] => [x]
  | y :: t => if y.1 < x.1 then y :: insertByNum x t else x :: y :: t

/-- Python `sorted(choices, key=lambda t: float(t[0]))`. -/
def sortIntervalChoices (l : List (ℚ × ℤ)) : List (ℚ × ℤ) :=
  l.foldr insertByNum []

/-- The duplicate-threshold loop of `_validate_interval_node`, carrying the
previous threshold. -/
def intervalSameNumAux (node_id : ℤ) :
    List (ℚ × ℤ) → Option ℚ → List Report
  | [], _ => []
  | (n, tid) :: rest, last =>
    (match last with
      | none => []
      | some lf =>
        if lf = n then [Report.invalidIntervalSameNumber node_id tid n]
        else []) ++ intervalSameNumAux node_id rest (some n)

/-- Stable insertion for sorting plain integer lists. -/
def insertInt (x : ℤ) : List ℤ → List ℤ
  | [] => [x]
  | y :: t => if y < x then y :: insertInt x t else x :: y :: t

def sortInts (l : List ℤ) : List ℤ := l.foldr insertInt []

/-- `TreeDialogueValidator._validate_target_ids_same_edge`: adjacent equal
ids in the sorted list are reported — unless the previous id is `0`, which
is falsy in the source's `if prev_id and prev_id == id_`. -/
def sameEdgeAux (node_id : ℤ) : List ℤ → Option ℤ → List Report
  | [], _ => []
  | i :: rest, prev =>
    (match prev with
      | some p =>
        if p ≠ 0 ∧ p = i then [Report.invalidIntervalSameTargetId node_id i]
        else []
      | none => []) ++ sameEdgeAux node_id rest (some i)

def TreeDialogueValidator._validate_target_ids_same_edge (node_id : ℤ)
    (target_ids : List ℤ) : List Report :=
  sameEdgeAux node_id (sortInts target_ids) none

/-- `TreeDialogueValidator._validate_interval_node`. -/
def TreeDialogueValidator._validate_interval_node (t : DialogueTree)
    (node : IntervalDialogueNode) : Option (List Report) :=
  let sorted_choices := sortIntervalChoices node.choices
  let target_ids := sorted_choices.map Prod.snd
  let invalid_target_ids :=
    (sorted_choices.filter
      (fun c => !(TreeDialogueValidator._validate_target_id t (some c.2)))).map
      Prod.snd
  let reports : List Report := nameReports node.id node.text
    ++ intervalSameNumAux node.id sorted_choices none
    ++ TreeDialogueValidator._validate_target_ids_same_edge node.id target_ids
    ++ (if invalid_target_ids.length > 0 then
        [Report.invalidTargetNodeId node.id invalid_target_ids] else [])
    ++ (if sorted_choices.length = 0 then [Report.noEdgesOnNode node.id]
        else [])
  if reports.length > 0 then some reports else none

/-- `TreeDialogueValidator._validate_end_node`. -/
def TreeDialogueValidator._validate_end_node (node : EndDialogueNode) :
    Option (List Report) :=
  let reports : List Report := nameReports node.id node.text
  if reports.length > 0 then some reports else none

/-- The per-variant dispatch of `TreeDialogueValidator.validate`'s
`isinstance` chain; the chain has no Notification branch, so such a node
falls to the `reports = None` else-branch. -/
def TreeDialogueValidator.validateNode (t : DialogueTree)
    (nd : DialogueNode) : Except PyErr (Option (List Report)) :=
  match nd with
  | .choice n => .ok (TreeDialogueValidator._validate_choice_node t n)
  | .quantifiable n => TreeDialogueValidator._validate_quantifiable_node t n
  | .question n =>
    .ok (TreeDialogueValidator._validate_one_answer_node t n.id n.text
      n.next_node)
  | .slackUsers n =>
    .ok (TreeDialogueValidator._validate_one_answer_node t n.id n.text
      n.next_node)
  | .interval n => .ok (TreeDialogueValidator._validate_interval_node t n)
  | .endNode n => .ok (TreeDialogueValidator._validate_end_node n)
  | .notification _ => .ok none

/-- The body of `TreeDialogueValidator.validate`, parameterized by the
reachability check it applies per node (the source's method call
`self._check_path_exists(node.id)`): per-node reports, the
not-traversable report when unreachable (`if not reports` replaces a
falsy value, which coincides with appending to the empty list), and the
summary accumulation; a `None` node raises `AttributeError` at `node.id`,
a `None`-bound quantifiable sort raises `TypeError`. -/
def TreeDialogueValidator.validateWith (reach : ℤ → Bool)
    (t : DialogueTree) : Except PyErr (List (ℤ × List Report)) :=
  t.tree.foldlM
    (fun summary p =>
      match p.2 with
      | none => .error .attributeError
      | some nd =>
        match TreeDialogueValidator.validateNode t nd with
        | .error e => .error e
        | .ok reports =>
          let reports2 : Option (List Report) :=
            if reach nd.nodeId then reports
            else some (reports.getD [] ++
              [Report.nodeNotTraversableToNodeId1 nd.nodeId])
          match reports2 with
          | none => .ok summary
          | some rs => .ok (add_reports summary rs))
    []

/-- `TreeDialogueValidator.validate`: one fresh BFS per node. -/
def TreeDialogueValidator.validate (t : DialogueTree) :
    Except PyErr (List (ℤ × List Report)) :=
  TreeDialogueValidator.validateWith
    (fun n => TreeDialogueValidator._check_path_exists
      (TreeDialogueValidator._mk_graph_data t) n)
    t

/-- The optimized formulation: one reachable-set, membership per node. -/
def TreeDialogueValidator.validateOpt (t : DialogueTree) :
    Except PyErr (List (ℤ × List Report)) :=
  TreeDialogueValidator.validateWith
    (fun n =>
      (reachable_from_root (TreeDialogueValidator._mk_graph_data t)).contains
        n)
    t

/-! ### Claim C8 -/

/-- C8: for every compact graph and every node id, the per-node BFS
`_check_path_exists` agrees exactly with membership in the reachable set
computed once by a single breadth-first pass from node 1 over the same
adjacency data; and the validator produces identical observable output
with either formulation. -/
theorem c8_check_path_exists_iff_mem_reachable_set :
    (∀ (g : List (ℤ × Option (List ℤ))) (n : ℤ),
        TreeDialogueValidator._check_path_exists g n = true ↔
          n ∈ reachable_from_root g) ∧
      (∀ t : DialogueTree,
        TreeDialogueValidator.validate t = TreeDialogueValidator.validateOpt
          t) := by
  have hmem : ∀ (g : List (ℤ × Option (List ℤ))) (n : ℤ),
      TreeDialogueValidator._check_path_exists g n = true ↔
        n ∈ reachable_from_root g := fun g n =>
    checkPathAux_eq_mem g n ∅ [1] (Finset.not_mem_empty n)
  refine ⟨hmem, ?_⟩
  intro t
  unfold TreeDialogueValidator.validate TreeDialogueValidator.validateOpt
  congr 1
  funext n
  have h1 := hmem (TreeDialogueValidator._mk_graph_data t) n
  have h2 : ((reachable_from_root
      (TreeDialogueValidator._mk_graph_data t)).contains n) = true ↔
      n ∈ reachable_from_root (TreeDialogueValidator._mk_graph_data t) :=
    List.elem_iff
  cases hb : TreeDialogueValidator._check_path_exists
      (TreeDialogueValidator._mk_graph_data t) n with
  | true =>
    exact ((h2.mpr (h1.mp hb)).symm)
  | false =>
    cases hc : (reachable_from_root
        (TreeDialogueValidator._mk_graph_data t)).contains n with
    | true => exact absurd (h1.mpr (h2.mp hc)) (by simp [hb])
    | false => rfl

/-! ### Claim C2 -/

/-- A built tree with one Quantifiable node whose two sub-ranges have `None`
minima (null bounds). -/
def c2Tree : DialogueTree :=
  ⟨[(1, some (.quantifiable ⟨1, "q", some 0, some 20,
      [(2, ⟨2, none, some 10⟩), (3, ⟨3, none, some 20⟩)]⟩))],
    {some NodeClass.quantifiable}⟩

/-- A built tree with one GenericQuestion node whose successor id 99 is
dangling. -/
def c2DanglingTree : DialogueTree :=
  ⟨[(1, some (.question ⟨1, "q", some 99⟩))], {some NodeClass.question}⟩

/-- C2 (code evaluated at the failing input): `validate()` does *not*
always complete — on a tree whose quantifiable node has two sub-ranges with
`None` minima, `sorted(..., key=lambda c: c[1].min)` compares `None` keys
and raises `TypeError` (the `InvalidQuantifiableNoneChoice` guard sits
after the sort, and even then it discards the report it builds).  Dangling
target ids, by contrast, are reported without throwing. -/
theorem c2_validate_throws_on_none_bounds :
    TreeDialogueValidator.validate c2Tree = .error .typeError ∧
      TreeDialogueValidator.validate c2DanglingTree =
        .ok [(1, [.invalidTargetNodeId 1 [99]])] := by
  constructor
  · rfl
  · have hreach : TreeDialogueValidator._check_path_exists
        (TreeDialogueValidator._mk_graph_data c2DanglingTree) 1 = true := by
      unfold TreeDialogueValidator._check_path_exists
      rw [TreeDialogueValidator.checkPathAux]
      simp
    unfold TreeDialogueValidator.validate TreeDialogueValidator.validateWith
    show List.foldlM _ _ _ = _
    rw [show (c2DanglingTree.tree) = [(1, some (.question ⟨1, "q", some 99⟩))]
      from rfl]
    rw [List.foldlM_cons]
    show (match TreeDialogueValidator.validateNode c2DanglingTree
        (.question ⟨1, "q", some 99⟩) with
      | .error e => Except.error e
      | .ok reports =>
        let reports2 : Option (List Report) :=
          if TreeDialogueValidator._check_path_exists
              (TreeDialogueValidator._mk_graph_data c2DanglingTree) 1 then
            reports
          else some (reports.getD [] ++
            [Report.nodeNotTraversableToNodeId1 1])
        match reports2 with
        | none => Except.ok []
        | some rs => Except.ok (add_reports [] rs)) >>=
        (fun s => List.foldlM _ s []) = _
    rw [show TreeDialogueValidator.validateNode c2DanglingTree
        (.question ⟨1, "q", some 99⟩) =
      Except.ok (some [Report.invalidTargetNodeId 1 [99]]) from rfl]
    rw [hreach]
    rfl

end FrankLibs
